import Mathlib

/-!
# VRto3DLib hotkey evaluation engine — shallow embedding

Embedding of `ApplyUserSettingsHotkeys` and its helpers from
`src/include/vrto3dlib/win32_helper.hpp`, together with the per-slot
configuration state taken from the parallel arrays of
`StereoDisplayDriverConfiguration` (`src/include/vrto3dlib/stereo_config.h`).

Modelling conventions:
* `float` values (depth, convergence, tolerance) are modelled as `ℚ`; the
  engine only copies and compares them (the single arithmetic operation is
  `fabs(a - b)` inside `NearlyEqual`, used only as a branch condition).
* `DWORD` (`u32`) button masks are `ℕ`, with the `static_cast<DWORD>` of the
  `int32_t` key field made explicit as reduction modulo `2^32`.
* The externally sampled inputs of one tick (the `isDown` key predicate,
  `got_xinput`, `xstate`) are collected into an `InputSnapshot` record.
* The `DepthConvBackend` function-pointer record backs onto a mutable pair of
  floats; it is modelled as a record of the two values, and the optional
  `onApplied` hook is modelled by counting how often it would be invoked.
* The parallel per-slot arrays `user_load_key[i]`, `user_store_key[i]`, …,
  indexed by `i < num_user_settings`, are consolidated into one `UserSlot`
  record per index; the engine walks the slots in index order exactly as the
  `for` loop does.
-/

/-- Modelled from the spec: the hotkey-mode constants `HOLD`, `TOGGLE`,
`SWITCH` come from `key_mappings.h`, which is not among the provided sources;
the spec describes `HotkeyMode` as an enumeration of three distinct values
(`Hold`, `Toggle`, `Switch`), so they are modelled as three distinct `Int`
constants compared with `==` exactly as the code compares `user_key_type`. -/
def HOLD : Int := 0

/-- Modelled from the spec: see `HOLD`. -/
def TOGGLE : Int := 1

/-- Modelled from the spec: see `HOLD`. -/
def SWITCH : Int := 2

/-- One tick's externally sampled input state: the `isDown` keyboard
predicate (`GetAsyncKeyState & 0x8000`), whether `GetXInputButtonState`
succeeded, and the combined button mask it produced. -/
structure InputSnapshot where
  keyDown : Int → Bool
  got_xinput : Bool
  xstate : Nat

/-- The live depth/convergence store behind `DepthConvBackend`'s
get/set function pointers. -/
structure Backend where
  depth : ℚ
  convergence : ℚ
  deriving DecidableEq

/-- One user-setting slot: the fields of the parallel arrays of
`StereoDisplayDriverConfiguration` at one index `i`. -/
structure UserSlot where
  user_load_key : Int
  user_load_str : String
  user_store_key : Int
  user_key_type : Int
  user_depth : ℚ
  user_convergence : ℚ
  prev_depth : ℚ
  prev_convergence : ℚ
  was_held : Bool
  load_xinput : Bool
  sleep_count : Int
  deriving DecidableEq

/-- `NearlyEqual` from win32_helper.hpp: `fabs(a - b) <= maxDelta`. -/
def NearlyEqual (a b maxDelta : ℚ) : Bool :=
  |a - b| ≤ maxDelta

/-- The `static_cast<DWORD>` applied to the `int32_t` load-key field:
conversion to an unsigned 32-bit value. -/
def dword (k : Int) : Nat :=
  (k % (2 ^ 32 : Int)).toNat

/-- The load-binding match of `ApplyUserSettingsHotkeys`:
`(load_xinput[i] && got_xinput && ((xstate & DWORD(user_load_key[i])) ==
DWORD(user_load_key[i]))) || (!load_xinput[i] && isDown(user_load_key[i]))`,
expressed as a rule over the binding's tag (`load_xinput`) and key value. -/
def bindingPressed (isXinput : Bool) (key : Int) (snap : InputSnapshot) : Bool :=
  (isXinput && snap.got_xinput &&
    decide ((snap.xstate &&& dword key) = dword key))
  || (!isXinput && snap.keyDown key)

/-- `loadPressed` for one slot. -/
def loadPressedOf (snap : InputSnapshot) (s : UserSlot) : Bool :=
  bindingPressed s.load_xinput s.user_load_key snap

/-- The store check's condition: `isDown(cfg.user_store_key[i])`. -/
def storePressedOf (snap : InputSnapshot) (s : UserSlot) : Bool :=
  snap.keyDown s.user_store_key

/-- The per-slot debounce decrement that opens each loop iteration:
`if (cfg.sleep_count[i] > 0) cfg.sleep_count[i]--`. -/
def decSleep (s : UserSlot) : UserSlot :=
  if s.sleep_count > 0 then { s with sleep_count := s.sleep_count - 1 } else s

/-- The `if (loadPressed) … else if …` chain of one loop iteration of
`ApplyUserSettingsHotkeys`, applied to the slot state after the debounce
decrement.  Returns the updated slot, the updated backend, and the number of
`applied()` calls made. -/
def evalSlotCore (smax : Int) (maxDelta : ℚ) (snap : InputSnapshot)
    (s : UserSlot) (b : Backend) : UserSlot × Backend × Nat :=
  if loadPressedOf snap s then
    if s.user_key_type = HOLD ∧ s.was_held = false then
      ({ s with prev_depth := b.depth, prev_convergence := b.convergence,
                was_held := true },
       { depth := s.user_depth, convergence := s.user_convergence }, 1)
    else if s.user_key_type = TOGGLE ∧ s.sleep_count < 1 then
      let s := { s with sleep_count := smax }
      let curD := b.depth
      let curC := b.convergence
      if NearlyEqual curD s.user_depth maxDelta &&
         NearlyEqual curC s.user_convergence maxDelta then
        (s, { depth := s.prev_depth, convergence := s.prev_convergence }, 1)
      else
        ({ s with prev_depth := curD, prev_convergence := curC },
         { depth := s.user_depth, convergence := s.user_convergence }, 1)
    else if s.user_key_type = SWITCH then
      (s, { depth := s.user_depth, convergence := s.user_convergence }, 1)
    else
      (s, b, 0)
  else if s.user_key_type = HOLD ∧ s.was_held = true then
    ({ s with was_held := false },
     { depth := s.prev_depth, convergence := s.prev_convergence }, 1)
  else
    (s, b, 0)

/-- The load-evaluation part of one loop iteration: the debounce decrement
(`if (cfg.sleep_count[i] > 0) cfg.sleep_count[i]--`) followed by the
`loadPressed` branch chain. -/
def evalSlotLoad (smax : Int) (maxDelta : ℚ) (snap : InputSnapshot)
    (s : UserSlot) (b : Backend) : UserSlot × Backend × Nat :=
  evalSlotCore smax maxDelta snap (decSleep s) b

/-- The store-hotkey part of one loop iteration: if
`isDown(user_store_key[i])`, overwrite `user_depth[i]`/`user_convergence[i]`
with the backend's current values and set
`storeMsg = "Hotkey " + user_load_str[i] + " updated"`. -/
def evalSlotStore (snap : InputSnapshot) (s : UserSlot) (b : Backend) :
    UserSlot × Option String :=
  if storePressedOf snap s then
    ({ s with user_depth := b.depth, user_convergence := b.convergence },
     some ("Hotkey " ++ s.user_load_str ++ " updated"))
  else
    (s, none)

/-- One full loop iteration: the load evaluation followed by the store
check (in that order, as in the loop body). -/
def evalSlot (smax : Int) (maxDelta : ℚ) (snap : InputSnapshot)
    (s : UserSlot) (b : Backend) : UserSlot × Backend × Nat × Option String :=
  let r := evalSlotLoad smax maxDelta snap s b
  let t := evalSlotStore snap r.1 r.2.1
  (t.1, r.2.1, r.2.2, t.2)

/-- The slot loop of `ApplyUserSettingsHotkeys`, walked in index order.
Threads the backend through the slots and keeps the last store message
(`storeMsg` is overwritten each time a slot's store fires); `none` models the
initial empty `storeMsg`. -/
def runSlots (smax : Int) (maxDelta : ℚ) (snap : InputSnapshot) :
    List UserSlot → Backend → List UserSlot × Backend × Nat × Option String
  | [], b => ([], b, 0, none)
  | s :: rest, b =>
    let r := evalSlot smax maxDelta snap s b
    let q := runSlots smax maxDelta snap rest r.2.1
    (r.1 :: q.1, q.2.1, r.2.2.1 + q.2.2.1, Option.orElse q.2.2.2 (fun _ => r.2.2.2))

/-- `ApplyUserSettingsHotkeys`: one engine tick over the ordered slots,
returning the updated slots, backend, `applied()` count and the returned
`storeMsg` (the empty string when no slot stored). -/
def ApplyUserSettingsHotkeys (smax : Int) (maxDelta : ℚ) (snap : InputSnapshot)
    (slots : List UserSlot) (b : Backend) : List UserSlot × Backend × Nat × String :=
  let r := runSlots smax maxDelta snap slots b
  (r.1, r.2.1, r.2.2.1, (r.2.2.2).getD "")

/-- The slots/backend/applied-count effects of the loop, defined without the
`storeMsg` bookkeeping: used to state that the notification-selection policy
does not influence the side effects. -/
def runEffects (smax : Int) (maxDelta : ℚ) (snap : InputSnapshot) :
    List UserSlot → Backend → List UserSlot × Backend × Nat
  | [], b => ([], b, 0)
  | s :: rest, b =>
    let r := evalSlot smax maxDelta snap s b
    let q := runEffects smax maxDelta snap rest r.2.1
    (r.1 :: q.1, q.2.1, r.2.2.1 + q.2.2)

/-- The store notifications produced during one tick, in slot order: one per
slot whose store key is down (the store condition depends only on the
snapshot, never on the evolving backend or slot state). -/
def storeNotes (snap : InputSnapshot) (slots : List UserSlot) : List String :=
  (slots.filter (fun s => storePressedOf snap s)).map
    (fun s => "Hotkey " ++ s.user_load_str ++ " updated")

/-- Iterated load evaluation of one slot over `j` further ticks that all see
the same input snapshot, accumulating the number of `applied()` calls. -/
def iterLoad (smax : Int) (maxDelta : ℚ) (snap : InputSnapshot) :
    Nat → UserSlot × Backend × Nat → UserSlot × Backend × Nat
  | 0, acc => acc
  | j + 1, acc =>
    let r := evalSlotLoad smax maxDelta snap acc.1 acc.2.1
    iterLoad smax maxDelta snap j (r.1, r.2.1, acc.2.2 + r.2.2)

/-! ## Helper lemmas: the debounce decrement only touches `sleep_count` -/

@[simp]
lemma decSleep_user_key_type (s : UserSlot) :
    (decSleep s).user_key_type = s.user_key_type := by
  unfold decSleep; split <;> rfl

@[simp]
lemma decSleep_user_load_key (s : UserSlot) :
    (decSleep s).user_load_key = s.user_load_key := by
  unfold decSleep; split <;> rfl

@[simp]
lemma decSleep_user_load_str (s : UserSlot) :
    (decSleep s).user_load_str = s.user_load_str := by
  unfold decSleep; split <;> rfl

@[simp]
lemma decSleep_user_store_key (s : UserSlot) :
    (decSleep s).user_store_key = s.user_store_key := by
  unfold decSleep; split <;> rfl

@[simp]
lemma decSleep_load_xinput (s : UserSlot) :
    (decSleep s).load_xinput = s.load_xinput := by
  unfold decSleep; split <;> rfl

@[simp]
lemma decSleep_user_depth (s : UserSlot) :
    (decSleep s).user_depth = s.user_depth := by
  unfold decSleep; split <;> rfl

@[simp]
lemma decSleep_user_convergence (s : UserSlot) :
    (decSleep s).user_convergence = s.user_convergence := by
  unfold decSleep; split <;> rfl

@[simp]
lemma decSleep_prev_depth (s : UserSlot) :
    (decSleep s).prev_depth = s.prev_depth := by
  unfold decSleep; split <;> rfl

@[simp]
lemma decSleep_prev_convergence (s : UserSlot) :
    (decSleep s).prev_convergence = s.prev_convergence := by
  unfold decSleep; split <;> rfl

@[simp]
lemma decSleep_was_held (s : UserSlot) :
    (decSleep s).was_held = s.was_held := by
  unfold decSleep; split <;> rfl

@[simp]
lemma loadPressedOf_decSleep (snap : InputSnapshot) (s : UserSlot) :
    loadPressedOf snap (decSleep s) = loadPressedOf snap s := by
  unfold loadPressedOf bindingPressed; simp

@[simp]
lemma storePressedOf_decSleep (snap : InputSnapshot) (s : UserSlot) :
    storePressedOf snap (decSleep s) = storePressedOf snap s := by
  unfold storePressedOf; simp

/-! ## Concrete inputs used by the witnesses -/

/-- A snapshot with only key 1 down, no controller. -/
def snapK1 : InputSnapshot :=
  { keyDown := fun k => k == 1, got_xinput := false, xstate := 0 }

/-- A snapshot with no key down and no controller. -/
def snapNone : InputSnapshot :=
  { keyDown := fun _ => false, got_xinput := false, xstate := 0 }

/-- A snapshot with only key 2 down, no controller. -/
def snapK2 : InputSnapshot :=
  { keyDown := fun k => k == 2, got_xinput := false, xstate := 0 }

/-- A snapshot with keys 1 and 2 down, no controller. -/
def snapK12 : InputSnapshot :=
  { keyDown := fun k => k == 1 || k == 2, got_xinput := false, xstate := 0 }

/-- A snapshot with a controller present (buttons `0b101`), no key down. -/
def snapPad : InputSnapshot :=
  { keyDown := fun _ => false, got_xinput := true, xstate := 5 }

/-- A Toggle slot bound to key 1 (load) and key 2 (store). -/
def slotToggleW : UserSlot :=
  { user_load_key := 1, user_load_str := "N1", user_store_key := 2,
    user_key_type := TOGGLE, user_depth := 13, user_convergence := 7,
    prev_depth := 0, prev_convergence := 0, was_held := false,
    load_xinput := false, sleep_count := 0 }

/-- A Hold slot bound to key 1 (load) and key 2 (store). -/
def slotHoldW : UserSlot :=
  { user_load_key := 1, user_load_str := "N3", user_store_key := 2,
    user_key_type := HOLD, user_depth := 13, user_convergence := 7,
    prev_depth := 0, prev_convergence := 0, was_held := false,
    load_xinput := false, sleep_count := 0 }

/-- A Switch slot bound to key 1 (load) and key 2 (store). -/
def slotSwitchW : UserSlot :=
  { user_load_key := 1, user_load_str := "N0", user_store_key := 2,
    user_key_type := SWITCH, user_depth := 13, user_convergence := 7,
    prev_depth := 0, prev_convergence := 0, was_held := false,
    load_xinput := false, sleep_count := 0 }

/-- A Switch slot whose controller load binding has an empty (zero) mask. -/
def slotPadZero : UserSlot :=
  { user_load_key := 0, user_load_str := "P0", user_store_key := 2,
    user_key_type := SWITCH, user_depth := 2, user_convergence := 3,
    prev_depth := 0, prev_convergence := 0, was_held := false,
    load_xinput := true, sleep_count := 0 }

/-- A backend holding depth 0.1 and convergence 1. -/
def backendW : Backend := { depth := 1/10, convergence := 1 }

/-- A backend holding depth 0 and convergence 0 (integer values, so that
concrete evaluation needs no rational normalization). -/
def backendZ : Backend := { depth := 0, convergence := 0 }

/-! ## Per-branch characterizations of the load evaluation -/

lemma evalSlotCore_toggle_fire (smax : Int) (δ : ℚ) (snap : InputSnapshot)
    (s : UserSlot) (b : Backend)
    (hkt : s.user_key_type = TOGGLE) (hp : loadPressedOf snap s = true)
    (hc : s.sleep_count < 1) :
    evalSlotCore smax δ snap s b =
      if NearlyEqual b.depth s.user_depth δ &&
         NearlyEqual b.convergence s.user_convergence δ then
        ({ s with sleep_count := smax },
         { depth := s.prev_depth, convergence := s.prev_convergence }, 1)
      else
        ({ s with sleep_count := smax,
                  prev_depth := b.depth, prev_convergence := b.convergence },
         { depth := s.user_depth, convergence := s.user_convergence }, 1) := by
  have hH : ¬(s.user_key_type = HOLD ∧ s.was_held = false) := by
    simp [hkt, TOGGLE, HOLD]
  have hT : s.user_key_type = TOGGLE ∧ s.sleep_count < 1 := ⟨hkt, hc⟩
  simp only [evalSlotCore, hp, if_true, if_neg hH, if_pos hT]

/-- C1: for a Toggle slot whose load binding is pressed on a tick where the
debounce counter (checked after the decrement) has reached zero, the counter
is reset to `sleep_count_max`; then, with the backend's current depth and
convergence both compared to the slot targets by `abs(a - b) <= maxDelta`
(and both required to match), a match writes the saved `prev` values back to
the backend while a mismatch copies the current values into `prev` and
writes the targets; either branch makes exactly one `applied()` call. -/
theorem toggle_trigger_behaviour (smax : Int) (δ : ℚ) (snap : InputSnapshot)
    (s : UserSlot) (b : Backend)
    (hkt : s.user_key_type = TOGGLE)
    (hp : loadPressedOf snap s = true)
    (hc : (decSleep s).sleep_count < 1) :
    evalSlotLoad smax δ snap s b =
      if NearlyEqual b.depth s.user_depth δ &&
         NearlyEqual b.convergence s.user_convergence δ then
        ({ decSleep s with sleep_count := smax },
         { depth := s.prev_depth, convergence := s.prev_convergence }, 1)
      else
        ({ decSleep s with
            sleep_count := smax, prev_depth := b.depth,
            prev_convergence := b.convergence },
         { depth := s.user_depth, convergence := s.user_convergence }, 1) := by
  unfold evalSlotLoad
  rw [evalSlotCore_toggle_fire smax δ snap (decSleep s) b (by simp [hkt])
      (by simp [hp]) hc]
  simp

/-- Witness for `toggle_trigger_behaviour`: the Toggle slot `slotToggleW`
pressed on backend `(0.1, 1)`, which does not match the target `(13, 7)`
within tolerance `0.001`. -/
theorem toggle_trigger_behaviour_witness :
    slotToggleW.user_key_type = TOGGLE ∧
    loadPressedOf snapK1 slotToggleW = true ∧
    (decSleep slotToggleW).sleep_count < 1 ∧
    evalSlotLoad 30 (1/1000) snapK1 slotToggleW backendW =
      (if NearlyEqual backendW.depth slotToggleW.user_depth (1/1000) &&
          NearlyEqual backendW.convergence slotToggleW.user_convergence (1/1000) then
        ({ decSleep slotToggleW with sleep_count := 30 },
         { depth := slotToggleW.prev_depth,
           convergence := slotToggleW.prev_convergence }, 1)
      else
        ({ decSleep slotToggleW with
            sleep_count := 30, prev_depth := backendW.depth,
            prev_convergence := backendW.convergence },
         { depth := slotToggleW.user_depth,
           convergence := slotToggleW.user_convergence }, 1)) :=
  ⟨by decide, by decide, by decide,
   toggle_trigger_behaviour 30 (1/1000) snapK1 slotToggleW backendW
     (by decide) (by decide) (by decide)⟩

lemma evalSlotCore_hold_press (smax : Int) (δ : ℚ) (snap : InputSnapshot)
    (s : UserSlot) (b : Backend)
    (hkt : s.user_key_type = HOLD) (hw : s.was_held = false)
    (hp : loadPressedOf snap s = true) :
    evalSlotCore smax δ snap s b =
      ({ s with prev_depth := b.depth, prev_convergence := b.convergence,
                was_held := true },
       { depth := s.user_depth, convergence := s.user_convergence }, 1) := by
  simp only [evalSlotCore, hp, if_true, if_pos (And.intro hkt hw)]

lemma evalSlotCore_hold_release (smax : Int) (δ : ℚ) (snap : InputSnapshot)
    (s : UserSlot) (b : Backend)
    (hkt : s.user_key_type = HOLD) (hw : s.was_held = true)
    (hp : loadPressedOf snap s = false) :
    evalSlotCore smax δ snap s b =
      ({ s with was_held := false },
       { depth := s.prev_depth, convergence := s.prev_convergence }, 1) := by
  have hnp : ¬(loadPressedOf snap s = true) := by simp [hp]
  unfold evalSlotCore
  rw [if_neg hnp, if_pos (And.intro hkt hw)]

/-- C2: a Hold slot's press tick (load pressed, `was_held` false) captures the
backend's depth and convergence into `prev_depth`/`prev_convergence`, sets
`was_held`, applies the targets and makes one `applied()` call; a later
release tick (load not pressed, `was_held` true) writes the saved pair back
to the backend unchanged and clears `was_held`, so the press-then-release
round trip ends with the backend exactly equal to its pre-press state. -/
theorem hold_round_trip (smax : Int) (δ : ℚ) (snap₁ snap₂ : InputSnapshot)
    (s : UserSlot) (b : Backend)
    (hkt : s.user_key_type = HOLD)
    (hw : s.was_held = false)
    (hp₁ : loadPressedOf snap₁ s = true)
    (hp₂ : loadPressedOf snap₂ (evalSlotLoad smax δ snap₁ s b).1 = false) :
    evalSlotLoad smax δ snap₁ s b =
      ({ decSleep s with
          prev_depth := b.depth, prev_convergence := b.convergence,
          was_held := true },
       { depth := s.user_depth, convergence := s.user_convergence }, 1)
    ∧ evalSlotLoad smax δ snap₂ (evalSlotLoad smax δ snap₁ s b).1
        (evalSlotLoad smax δ snap₁ s b).2.1 =
      ({ decSleep (evalSlotLoad smax δ snap₁ s b).1 with was_held := false },
       b, 1) := by
  have h₁ : evalSlotLoad smax δ snap₁ s b =
      ({ decSleep s with
          prev_depth := b.depth, prev_convergence := b.convergence,
          was_held := true },
       { depth := s.user_depth, convergence := s.user_convergence }, 1) := by
    unfold evalSlotLoad
    rw [evalSlotCore_hold_press smax δ snap₁ (decSleep s) b (by simp [hkt])
        (by simp [hw]) (by simp [hp₁])]
    simp
  refine ⟨h₁, ?_⟩
  rw [h₁] at hp₂ ⊢
  unfold evalSlotLoad
  rw [evalSlotCore_hold_release smax δ snap₂ _ _ (by simp [hkt])
      (by simp) (by simp only [loadPressedOf_decSleep]; exact hp₂)]
  simp

/-- Witness for `hold_round_trip`: the Hold slot `slotHoldW`, key 1 pressed
then released, on backend `(0.1, 1)`. -/
theorem hold_round_trip_witness :
    slotHoldW.user_key_type = HOLD ∧
    slotHoldW.was_held = false ∧
    loadPressedOf snapK1 slotHoldW = true ∧
    loadPressedOf snapNone (evalSlotLoad 30 (1/1000) snapK1 slotHoldW backendW).1 = false ∧
    (evalSlotLoad 30 (1/1000) snapK1 slotHoldW backendW =
      ({ decSleep slotHoldW with
          prev_depth := backendW.depth, prev_convergence := backendW.convergence,
          was_held := true },
       { depth := slotHoldW.user_depth, convergence := slotHoldW.user_convergence }, 1)
    ∧ evalSlotLoad 30 (1/1000) snapNone (evalSlotLoad 30 (1/1000) snapK1 slotHoldW backendW).1
        (evalSlotLoad 30 (1/1000) snapK1 slotHoldW backendW).2.1 =
      ({ decSleep (evalSlotLoad 30 (1/1000) snapK1 slotHoldW backendW).1 with was_held := false },
       backendW, 1)) :=
  ⟨by decide, by decide, by decide, by decide,
   hold_round_trip 30 (1/1000) snapK1 snapNone slotHoldW backendW
     (by decide) (by decide) (by decide) (by decide)⟩

lemma evalSlotCore_switch_press (smax : Int) (δ : ℚ) (snap : InputSnapshot)
    (s : UserSlot) (b : Backend)
    (hkt : s.user_key_type = SWITCH) (hp : loadPressedOf snap s = true) :
    evalSlotCore smax δ snap s b =
      (s, { depth := s.user_depth, convergence := s.user_convergence }, 1) := by
  have hH : ¬(s.user_key_type = HOLD ∧ s.was_held = false) := by
    simp [hkt, SWITCH, HOLD]
  have hT : ¬(s.user_key_type = TOGGLE ∧ s.sleep_count < 1) := by
    simp [hkt, SWITCH, TOGGLE]
  simp only [evalSlotCore, hp, if_true, if_neg hH, if_neg hT, if_pos hkt]

lemma evalSlotCore_noop (smax : Int) (δ : ℚ) (snap : InputSnapshot)
    (s : UserSlot) (b : Backend)
    (hp : loadPressedOf snap s = false)
    (hH : ¬(s.user_key_type = HOLD ∧ s.was_held = true)) :
    evalSlotCore smax δ snap s b = (s, b, 0) := by
  have hnp : ¬(loadPressedOf snap s = true) := by simp [hp]
  unfold evalSlotCore
  rw [if_neg hnp, if_neg hH]

/-- C3: a Switch slot applies its targets to the backend and makes one
`applied()` call on every tick on which its load binding is pressed, with no
debounce gate; on a tick on which the binding is not pressed it performs no
backend write and no `applied()` call; hence after a pressed tick followed by
a released tick the backend still holds the targets. -/
theorem switch_behaviour (smax : Int) (δ : ℚ) (snap : InputSnapshot)
    (s : UserSlot) (b : Backend)
    (hkt : s.user_key_type = SWITCH) :
    (loadPressedOf snap s = true →
      evalSlotLoad smax δ snap s b =
        (decSleep s, { depth := s.user_depth, convergence := s.user_convergence }, 1))
    ∧ (loadPressedOf snap s = false →
      evalSlotLoad smax δ snap s b = (decSleep s, b, 0))
    ∧ (loadPressedOf snap s = true →
      ∀ snap₂ : InputSnapshot, loadPressedOf snap₂ s = false →
        evalSlotLoad smax δ snap₂ (evalSlotLoad smax δ snap s b).1
            (evalSlotLoad smax δ snap s b).2.1 =
          (decSleep (decSleep s),
           { depth := s.user_depth, convergence := s.user_convergence }, 0)) := by
  have hpress : loadPressedOf snap s = true →
      evalSlotLoad smax δ snap s b =
        (decSleep s, { depth := s.user_depth, convergence := s.user_convergence }, 1) := by
    intro hp
    unfold evalSlotLoad
    rw [evalSlotCore_switch_press smax δ snap (decSleep s) b (by simp [hkt])
        (by simp [hp])]
    simp
  have hrel : ∀ snap₂ : InputSnapshot, loadPressedOf snap₂ s = false →
      ∀ b₂ : Backend, evalSlotLoad smax δ snap₂ (decSleep s) b₂ =
        (decSleep (decSleep s), b₂, 0) := by
    intro snap₂ hp₂ b₂
    unfold evalSlotLoad
    rw [evalSlotCore_noop smax δ snap₂ (decSleep (decSleep s)) b₂
        (by simp [hp₂]) (by simp [hkt, SWITCH, HOLD])]
  refine ⟨hpress, ?_, ?_⟩
  · intro hp
    unfold evalSlotLoad
    rw [evalSlotCore_noop smax δ snap (decSleep s) b (by simp [hp])
        (by simp [hkt, SWITCH, HOLD])]
  · intro hp snap₂ hp₂
    rw [hpress hp]
    exact hrel snap₂ hp₂ _

/-- Witness for `switch_behaviour`: the Switch slot `slotSwitchW` on backend
`(0.1, 1)`, pressed via key 1 and then released. -/
theorem switch_behaviour_witness :
    slotSwitchW.user_key_type = SWITCH ∧
    loadPressedOf snapK1 slotSwitchW = true ∧
    loadPressedOf snapNone slotSwitchW = false ∧
    ((loadPressedOf snapK1 slotSwitchW = true →
      evalSlotLoad 30 (1/1000) snapK1 slotSwitchW backendW =
        (decSleep slotSwitchW,
         { depth := slotSwitchW.user_depth,
           convergence := slotSwitchW.user_convergence }, 1))
    ∧ (loadPressedOf snapK1 slotSwitchW = false →
      evalSlotLoad 30 (1/1000) snapK1 slotSwitchW backendW =
        (decSleep slotSwitchW, backendW, 0))
    ∧ (loadPressedOf snapK1 slotSwitchW = true →
      ∀ snap₂ : InputSnapshot, loadPressedOf snap₂ slotSwitchW = false →
        evalSlotLoad 30 (1/1000) snap₂
            (evalSlotLoad 30 (1/1000) snapK1 slotSwitchW backendW).1
            (evalSlotLoad 30 (1/1000) snapK1 slotSwitchW backendW).2.1 =
          (decSleep (decSleep slotSwitchW),
           { depth := slotSwitchW.user_depth,
             convergence := slotSwitchW.user_convergence }, 0))) :=
  ⟨by decide, by decide, by decide,
   switch_behaviour 30 (1/1000) snapK1 slotSwitchW backendW (by decide)⟩

lemma evalSlotCore_toggle_suppressed (smax : Int) (δ : ℚ) (snap : InputSnapshot)
    (s : UserSlot) (b : Backend)
    (hkt : s.user_key_type = TOGGLE) (hp : loadPressedOf snap s = true)
    (hc : ¬(s.sleep_count < 1)) :
    evalSlotCore smax δ snap s b = (s, b, 0) := by
  have hH : ¬(s.user_key_type = HOLD ∧ s.was_held = false) := by
    simp [hkt, TOGGLE, HOLD]
  have hT : ¬(s.user_key_type = TOGGLE ∧ s.sleep_count < 1) := by
    simp [hc]
  have hS : ¬(s.user_key_type = SWITCH) := by
    simp [hkt, TOGGLE, SWITCH]
  simp only [evalSlotCore, hp, if_true, if_neg hH, if_neg hT, if_neg hS]

lemma iterLoad_suppressed (smax : Int) (δ : ℚ) (snap : InputSnapshot) :
    ∀ (j : Nat) (s : UserSlot) (b : Backend) (n : Nat),
      s.user_key_type = TOGGLE → loadPressedOf snap s = true →
      (j : Int) < s.sleep_count →
      iterLoad smax δ snap j (s, b, n) =
        ({ s with sleep_count := s.sleep_count - j }, b, n) := by
  intro j
  induction j with
  | zero =>
    intro s b n _ _ _
    show (s, b, n) = _
    norm_num
  | succ j ih =>
    intro s b n hkt hp hj
    have hpos : s.sleep_count > 0 := by
      have : (0 : Int) ≤ (j : Int) := Int.ofNat_nonneg j
      omega
    have hdec : decSleep s = { s with sleep_count := s.sleep_count - 1 } := by
      unfold decSleep; rw [if_pos hpos]
    have hstep : evalSlotLoad smax δ snap s b =
        ({ s with sleep_count := s.sleep_count - 1 }, b, 0) := by
      unfold evalSlotLoad
      rw [hdec]
      refine evalSlotCore_toggle_suppressed smax δ snap _ b (by simp [hkt])
        (by simpa [loadPressedOf] using hp) ?_
      show ¬(s.sleep_count - 1 < 1)
      omega
    show iterLoad smax δ snap j _ = _
    rw [hstep]
    have := ih { s with sleep_count := s.sleep_count - 1 } b (n + 0)
      (by simp [hkt]) (by simpa [loadPressedOf] using hp)
      (by show (j : Int) < s.sleep_count - 1; push_cast at hj ⊢; omega)
    simp only [Nat.add_zero] at this ⊢
    rw [this]
    have harith : s.sleep_count - 1 - (j : Int) = s.sleep_count - ((j + 1 : Nat) : Int) := by
      push_cast; ring
    simp only [harith]

/-- C4: after a Toggle slot triggers (which resets its debounce counter to
`sleep_count_max`), holding or re-pressing the load binding for any `j`
further ticks with `j < sleep_count_max` — i.e. while the counter is still
positive when checked — leaves the backend untouched, changes nothing in the
slot except the decrementing counter (in particular the saved
`prev_depth`/`prev_convergence` are unchanged), and makes no `applied()`
call. -/
theorem toggle_debounce_suppression (smax : Int) (δ : ℚ) (snap : InputSnapshot)
    (s : UserSlot) (b : Backend) (j : Nat)
    (hkt : s.user_key_type = TOGGLE)
    (hp : loadPressedOf snap s = true)
    (hc : (decSleep s).sleep_count < 1)
    (hj : (j : Int) < smax) :
    iterLoad smax δ snap j
      ((evalSlotLoad smax δ snap s b).1, (evalSlotLoad smax δ snap s b).2.1, 0) =
      ({ (evalSlotLoad smax δ snap s b).1 with sleep_count := smax - j },
       (evalSlotLoad smax δ snap s b).2.1, 0) := by
  have h₁ := evalSlotCore_toggle_fire smax δ snap (decSleep s) b
    (by simp [hkt]) (by simp [hp]) hc
  unfold evalSlotLoad
  rw [h₁]
  split
  · exact iterLoad_suppressed smax δ snap j _ _ 0 (by simp [hkt])
      (by simpa [loadPressedOf] using hp) (by simpa using hj)
  · exact iterLoad_suppressed smax δ snap j _ _ 0 (by simp [hkt])
      (by simpa [loadPressedOf] using hp) (by simpa using hj)

/-- Witness for `toggle_debounce_suppression`: the Toggle slot `slotToggleW`
triggered on backend `(0.1, 1)` and then held for 5 more ticks with
`sleep_count_max = 30`. -/
theorem toggle_debounce_suppression_witness :
    slotToggleW.user_key_type = TOGGLE ∧
    loadPressedOf snapK1 slotToggleW = true ∧
    (decSleep slotToggleW).sleep_count < 1 ∧
    ((5 : Nat) : Int) < 30 ∧
    iterLoad 30 (1/1000) snapK1 5
      ((evalSlotLoad 30 (1/1000) snapK1 slotToggleW backendW).1,
       (evalSlotLoad 30 (1/1000) snapK1 slotToggleW backendW).2.1, 0) =
      ({ (evalSlotLoad 30 (1/1000) snapK1 slotToggleW backendW).1 with
          sleep_count := 30 - 5 },
       (evalSlotLoad 30 (1/1000) snapK1 slotToggleW backendW).2.1, 0) :=
  ⟨by decide, by decide, by decide, by decide,
   toggle_debounce_suppression 30 (1/1000) snapK1 slotToggleW backendW 5
     (by decide) (by decide) (by decide) (by decide)⟩

/-- C5: the per-tick store decision is the same matching rule as the load
binding's, applied to the store binding — which in the code is always a key
binding (`isDown(user_store_key[i])`, there is no `store_xinput` tag): the
rule maps a key binding to "the key is currently down" and a controller
binding to "a controller is present and `(xstate & mask) == mask`", and the
load decision is this rule applied to the load binding's tag and key. -/
theorem store_pressed_same_rule :
    (∀ (snap : InputSnapshot) (s : UserSlot),
      storePressedOf snap s = bindingPressed false s.user_store_key snap)
    ∧ (∀ (snap : InputSnapshot) (s : UserSlot),
      loadPressedOf snap s = bindingPressed s.load_xinput s.user_load_key snap)
    ∧ (∀ (snap : InputSnapshot) (k : Int),
      bindingPressed false k snap = snap.keyDown k)
    ∧ (∀ (snap : InputSnapshot) (k : Int),
      bindingPressed true k snap =
        (snap.got_xinput && decide ((snap.xstate &&& dword k) = dword k))) := by
  refine ⟨fun snap s => ?_, fun snap s => rfl, fun snap k => ?_, fun snap k => ?_⟩
  · simp [storePressedOf, bindingPressed]
  · simp [bindingPressed]
  · simp [bindingPressed]

/-- C6 counterexample: the slot `slotPadZero` has a controller load binding
with an empty (zero) mask; in the snapshot `snapPad` a controller is present,
the binding matches (`(xstate & 0) == 0` is vacuously true), and the slot's
load evaluation fires its Switch branch, mutating the backend and making an
`applied()` call — refuting "such a binding never matches". -/
theorem empty_mask_counterexample :
    loadPressedOf snapPad slotPadZero = true ∧
    (evalSlotLoad 30 0 snapPad slotPadZero backendZ).2.1 ≠ backendZ ∧
    (evalSlotLoad 30 0 snapPad slotPadZero backendZ).2.2 = 1 := by
  refine ⟨by decide, by decide, by decide⟩

/-- C6 (amended): a controller binding with an empty (zero) mask matches
exactly when the snapshot reports a controller present — the containment
check `(xstate & 0) == 0` is vacuously true — so such a binding fires its
branch like any pressed binding while a controller is connected, and never
matches only in snapshots without a controller. -/
theorem empty_mask_matches_iff_controller (snap : InputSnapshot) (s : UserSlot)
    (hx : s.load_xinput = true) (hm : dword s.user_load_key = 0) :
    loadPressedOf snap s = snap.got_xinput := by
  simp [loadPressedOf, bindingPressed, hx, hm]

/-- Witness for `empty_mask_matches_iff_controller`: `slotPadZero` in the
controller-less snapshot `snapNone` does not match. -/
theorem empty_mask_matches_iff_controller_witness :
    slotPadZero.load_xinput = true ∧ dword slotPadZero.user_load_key = 0 ∧
    loadPressedOf snapNone slotPadZero = snapNone.got_xinput :=
  ⟨by decide, by decide,
   empty_mask_matches_iff_controller snapNone slotPadZero (by decide) (by decide)⟩

/-- The load evaluation never changes a slot's configuration fields: the
load/store keys, the label, the binding tag and the mode. -/
lemma evalSlotLoad_preserves_config (smax : Int) (δ : ℚ) (snap : InputSnapshot)
    (s : UserSlot) (b : Backend) :
    (evalSlotLoad smax δ snap s b).1.user_load_key = s.user_load_key
    ∧ (evalSlotLoad smax δ snap s b).1.user_load_str = s.user_load_str
    ∧ (evalSlotLoad smax δ snap s b).1.user_store_key = s.user_store_key
    ∧ (evalSlotLoad smax δ snap s b).1.load_xinput = s.load_xinput
    ∧ (evalSlotLoad smax δ snap s b).1.user_key_type = s.user_key_type := by
  refine ⟨?_, ?_, ?_, ?_, ?_⟩ <;>
    (unfold evalSlotLoad evalSlotCore; repeat' split) <;> simp <;>
    (split <;> simp)

/-- When the store key is down, one full slot iteration ends with the slot's
targets overwritten by the backend values left by the load evaluation, and
the notification naming the slot. -/
lemma evalSlot_store_fires (smax : Int) (δ : ℚ) (snap : InputSnapshot)
    (s : UserSlot) (b : Backend) (h : storePressedOf snap s = true) :
    (evalSlot smax δ snap s b).1 =
      { (evalSlotLoad smax δ snap s b).1 with
          user_depth := (evalSlotLoad smax δ snap s b).2.1.depth,
          user_convergence := (evalSlotLoad smax δ snap s b).2.1.convergence }
    ∧ (evalSlot smax δ snap s b).2.2.2 =
        some ("Hotkey " ++ s.user_load_str ++ " updated") := by
  have hsp : storePressedOf snap (evalSlotLoad smax δ snap s b).1 = true := by
    unfold storePressedOf at h ⊢
    rw [(evalSlotLoad_preserves_config smax δ snap s b).2.2.1]
    exact h
  have hstr := (evalSlotLoad_preserves_config smax δ snap s b).2.1
  refine ⟨?_, ?_⟩ <;> simp [evalSlot, evalSlotStore, hsp, hstr]

/-- C7: on every tick on which a slot's store key is down — a level-triggered
check with no debounce, performed identically for every mode — the slot's
`user_depth`/`user_convergence` targets are overwritten with the backend's
current (post-load-evaluation) depth and convergence, and the store
notification `"Hotkey <label> updated"` naming that slot is produced; being
per-tick and stateless, this repeats on every tick the key stays down. -/
theorem store_overwrite_every_tick (smax : Int) (δ : ℚ) (snap : InputSnapshot)
    (s : UserSlot) (b : Backend)
    (h : storePressedOf snap s = true) :
    (evalSlot smax δ snap s b).1.user_depth =
      (evalSlotLoad smax δ snap s b).2.1.depth
    ∧ (evalSlot smax δ snap s b).1.user_convergence =
      (evalSlotLoad smax δ snap s b).2.1.convergence
    ∧ (evalSlot smax δ snap s b).2.2.2 =
        some ("Hotkey " ++ s.user_load_str ++ " updated") := by
  obtain ⟨h₁, h₂⟩ := evalSlot_store_fires smax δ snap s b h
  exact ⟨by rw [h₁], by rw [h₁], h₂⟩

/-- Witness for `store_overwrite_every_tick`: `slotHoldW` with its store key
(key 2) down in `snapK2`, on backend `(0.1, 1)`. -/
theorem store_overwrite_every_tick_witness :
    storePressedOf snapK2 slotHoldW = true ∧
    ((evalSlot 30 (1/1000) snapK2 slotHoldW backendW).1.user_depth =
      (evalSlotLoad 30 (1/1000) snapK2 slotHoldW backendW).2.1.depth
    ∧ (evalSlot 30 (1/1000) snapK2 slotHoldW backendW).1.user_convergence =
      (evalSlotLoad 30 (1/1000) snapK2 slotHoldW backendW).2.1.convergence
    ∧ (evalSlot 30 (1/1000) snapK2 slotHoldW backendW).2.2.2 =
        some ("Hotkey " ++ slotHoldW.user_load_str ++ " updated")) :=
  ⟨by decide,
   store_overwrite_every_tick 30 (1/1000) snapK2 slotHoldW backendW (by decide)⟩

lemma getLast?_cons_eq_orElse {α : Type} (a : α) (l : List α) :
    (a :: l).getLast? = Option.orElse l.getLast? (fun _ => some a) := by
  cases l with
  | nil => rfl
  | cons b t =>
    rw [List.getLast?_cons_cons,
      List.getLast?_eq_getLast_of_ne_nil (List.cons_ne_nil b t)]
    rfl

lemma orElse_none_fn {α : Type} (o : Option α) :
    Option.orElse o (fun _ => none) = o := by
  cases o <;> rfl

/-- The notification one slot iteration produces: fires exactly when the
store key is down, with the message built from the slot's label. -/
lemma evalSlot_msg (smax : Int) (δ : ℚ) (snap : InputSnapshot)
    (s : UserSlot) (b : Backend) :
    (evalSlot smax δ snap s b).2.2.2 =
      if storePressedOf snap s = true
      then some ("Hotkey " ++ s.user_load_str ++ " updated") else none := by
  have hsp : storePressedOf snap (evalSlotLoad smax δ snap s b).1 =
      storePressedOf snap s := by
    unfold storePressedOf
    rw [(evalSlotLoad_preserves_config smax δ snap s b).2.2.1]
  have hstr := (evalSlotLoad_preserves_config smax δ snap s b).2.1
  simp only [evalSlot, evalSlotStore, hsp, hstr]
  split <;> rfl

lemma storeNotes_cons (snap : InputSnapshot) (s : UserSlot) (rest : List UserSlot) :
    storeNotes snap (s :: rest) =
      if storePressedOf snap s = true
      then ("Hotkey " ++ s.user_load_str ++ " updated") :: storeNotes snap rest
      else storeNotes snap rest := by
  unfold storeNotes
  rw [List.filter_cons]
  split <;> simp

/-- C8: one engine tick walks every slot in configuration order; its final
slots, backend and `applied()` count are exactly those of the effects-only
fold `runEffects` (so every triggered slot's side effects happen regardless
of which notification is reported), while the returned message is precisely
the last store notification produced during the tick — `none` when no slot
stored, and the most recent slot's message when several stored. -/
theorem tick_effects_and_last_notification (smax : Int) (δ : ℚ)
    (snap : InputSnapshot) :
    ∀ (slots : List UserSlot) (b : Backend),
      runSlots smax δ snap slots b =
        ((runEffects smax δ snap slots b).1,
         (runEffects smax δ snap slots b).2.1,
         (runEffects smax δ snap slots b).2.2,
         (storeNotes snap slots).getLast?) := by
  intro slots
  induction slots with
  | nil => intro b; rfl
  | cons s rest ih =>
    intro b
    simp only [runSlots, runEffects, ih, Prod.mk.injEq]
    refine ⟨trivial, trivial, trivial, ?_⟩
    rw [storeNotes_cons, evalSlot_msg]
    by_cases h : storePressedOf snap s = true
    · rw [if_pos h, if_pos h, getLast?_cons_eq_orElse]
    · rw [if_neg h, if_neg h, orElse_none_fn]

lemma decSleep_sleep_count (s : UserSlot) :
    (decSleep s).sleep_count =
      if s.sleep_count > 0 then s.sleep_count - 1 else s.sleep_count := by
  unfold decSleep; split <;> rfl

lemma evalSlotStore_sleep_count (snap : InputSnapshot) (s : UserSlot) (b : Backend) :
    (evalSlotStore snap s b).1.sleep_count = s.sleep_count := by
  unfold evalSlotStore; split <;> rfl

/-- The complete evolution of one slot's debounce counter over one load
evaluation: the counter is first decremented when positive (whether or not
any branch fires), and then reset to `sleep_count_max` exactly when the
Toggle branch triggers. -/
lemma evalSlotLoad_sleep_count (smax : Int) (δ : ℚ) (snap : InputSnapshot)
    (s : UserSlot) (b : Backend) :
    (evalSlotLoad smax δ snap s b).1.sleep_count =
      if loadPressedOf snap s = true ∧ s.user_key_type = TOGGLE ∧
          (decSleep s).sleep_count < 1
      then smax else (decSleep s).sleep_count := by
  by_cases hp : loadPressedOf snap s = true
  · by_cases hkt : s.user_key_type = TOGGLE
    · by_cases hc : (decSleep s).sleep_count < 1
      · rw [if_pos ⟨hp, hkt, hc⟩]
        unfold evalSlotLoad
        rw [evalSlotCore_toggle_fire smax δ snap (decSleep s) b
            (by simp [hkt]) (by simp [hp]) hc]
        split <;> rfl
      · rw [if_neg (by tauto)]
        unfold evalSlotLoad
        rw [evalSlotCore_toggle_suppressed smax δ snap (decSleep s) b
            (by simp [hkt]) (by simp [hp]) hc]
    · rw [if_neg (by tauto)]
      unfold evalSlotLoad evalSlotCore
      have hp' : loadPressedOf snap (decSleep s) = true := by simp [hp]
      have hT : ¬((decSleep s).user_key_type = TOGGLE ∧
          (decSleep s).sleep_count < 1) := by simp [hkt]
      rw [if_pos hp']
      split_ifs with h1 h2 <;> first | rfl | exact absurd h2 hT
  · rw [if_neg (by tauto)]
    unfold evalSlotLoad evalSlotCore
    have hp' : ¬(loadPressedOf snap (decSleep s) = true) := by
      simpa using hp
    rw [if_neg hp']
    split_ifs <;> rfl

/-- C9: (a) over one full slot iteration the debounce counter first takes the
conditional-decrement value `decSleep` — a decrement by one exactly when
positive, performed whether or not the slot fires — and is reset to
`sleep_count_max` precisely on a Toggle trigger; (b) consequently, when
`sleep_count_max` is nonnegative, a tick over any slot list maps states in
which every counter is nonnegative to states in which every counter is
nonnegative. -/
theorem debounce_counter_invariant (smax : Int) (δ : ℚ) (snap : InputSnapshot)
    (hmax : 0 ≤ smax) :
    (∀ (s : UserSlot) (b : Backend),
      (evalSlot smax δ snap s b).1.sleep_count =
        if loadPressedOf snap s = true ∧ s.user_key_type = TOGGLE ∧
            (decSleep s).sleep_count < 1
        then smax else (decSleep s).sleep_count)
    ∧ (∀ (slots : List UserSlot) (b : Backend) (t : UserSlot),
        (∀ s ∈ slots, 0 ≤ s.sleep_count) →
        t ∈ (runSlots smax δ snap slots b).1 → 0 ≤ t.sleep_count) := by
  have hslot : ∀ (s : UserSlot) (b : Backend),
      (evalSlot smax δ snap s b).1.sleep_count =
        if loadPressedOf snap s = true ∧ s.user_key_type = TOGGLE ∧
            (decSleep s).sleep_count < 1
        then smax else (decSleep s).sleep_count := by
    intro s b
    have h1 : (evalSlot smax δ snap s b).1.sleep_count =
        (evalSlotLoad smax δ snap s b).1.sleep_count := by
      simp only [evalSlot]
      exact evalSlotStore_sleep_count snap _ _
    rw [h1, evalSlotLoad_sleep_count]
  refine ⟨hslot, ?_⟩
  intro slots
  induction slots with
  | nil =>
    intro b t _ ht
    simp [runSlots] at ht
  | cons s rest ih =>
    intro b t hall ht
    simp only [runSlots] at ht
    rcases List.mem_cons.mp ht with h1 | h2
    · have hs0 : 0 ≤ s.sleep_count := hall s (List.mem_cons_self s rest)
      have hd : 0 ≤ (decSleep s).sleep_count := by
        rw [decSleep_sleep_count]
        split <;> omega
      rw [h1, hslot s b]
      split
      · exact hmax
      · exact hd
    · exact ih _ t (fun u hu => hall u (List.mem_cons_of_mem s hu)) h2

/-- Witness for `debounce_counter_invariant`: the single-slot list
`[slotToggleW]` on a tick with nothing pressed, `sleep_count_max = 30`. -/
theorem debounce_counter_invariant_witness :
    (evalSlot 30 1 snapNone slotToggleW backendZ).1.sleep_count =
      (if loadPressedOf snapNone slotToggleW = true ∧
          slotToggleW.user_key_type = TOGGLE ∧
          (decSleep slotToggleW).sleep_count < 1
       then 30 else (decSleep slotToggleW).sleep_count) ∧
    (0 : Int) ≤ slotToggleW.sleep_count :=
  ⟨(debounce_counter_invariant 30 1 snapNone (by decide)).1 slotToggleW backendZ,
   (debounce_counter_invariant 30 1 snapNone (by decide)).2 [slotToggleW]
     backendZ slotToggleW (by decide) (by decide)⟩

/-- C10: within one slot iteration the store check runs after the load
evaluation; so when the load and store bindings are both pressed on a tick on
which the load action applies the targets (a Switch slot, a Hold slot's first
held tick, or a Toggle slot toggling on), the backend left by the load
evaluation holds exactly the targets, and the store captures those post-apply
values: the slot's `user_depth`/`user_convergence` end the tick equal to the
targets the slot itself just applied, not the pre-activation backend
values. -/
theorem store_captures_post_apply (smax : Int) (δ : ℚ) (snap : InputSnapshot)
    (s : UserSlot) (b : Backend)
    (hload : loadPressedOf snap s = true)
    (hstore : storePressedOf snap s = true)
    (happly : s.user_key_type = SWITCH
      ∨ (s.user_key_type = HOLD ∧ s.was_held = false)
      ∨ (s.user_key_type = TOGGLE ∧ (decSleep s).sleep_count < 1 ∧
          (NearlyEqual b.depth s.user_depth δ &&
           NearlyEqual b.convergence s.user_convergence δ) = false)) :
    (evalSlotLoad smax δ snap s b).2.1 =
      { depth := s.user_depth, convergence := s.user_convergence }
    ∧ (evalSlot smax δ snap s b).1.user_depth = s.user_depth
    ∧ (evalSlot smax δ snap s b).1.user_convergence = s.user_convergence := by
  have hb : (evalSlotLoad smax δ snap s b).2.1 =
      { depth := s.user_depth, convergence := s.user_convergence } := by
    rcases happly with hsw | ⟨hh, hw⟩ | ⟨ht, hc, hm⟩
    · unfold evalSlotLoad
      rw [evalSlotCore_switch_press smax δ snap (decSleep s) b
          (by simp [hsw]) (by simp [hload])]
      simp
    · unfold evalSlotLoad
      rw [evalSlotCore_hold_press smax δ snap (decSleep s) b
          (by simp [hh]) (by simp [hw]) (by simp [hload])]
      simp
    · unfold evalSlotLoad
      rw [evalSlotCore_toggle_fire smax δ snap (decSleep s) b
          (by simp [ht]) (by simp [hload]) hc]
      have hm' : (NearlyEqual b.depth (decSleep s).user_depth δ &&
          NearlyEqual b.convergence (decSleep s).user_convergence δ) = false := by
        simpa using hm
      rw [hm']
      simp
  obtain ⟨hs1, _⟩ := evalSlot_store_fires smax δ snap s b hstore
  refine ⟨hb, ?_, ?_⟩ <;> rw [hs1] <;> simp [hb]

/-- Witness for `store_captures_post_apply`: the Switch slot `slotSwitchW`
with both key 1 (load) and key 2 (store) down, on backend `(0, 0)`. -/
theorem store_captures_post_apply_witness :
    loadPressedOf snapK12 slotSwitchW = true ∧
    storePressedOf snapK12 slotSwitchW = true ∧
    slotSwitchW.user_key_type = SWITCH ∧
    ((evalSlotLoad 30 1 snapK12 slotSwitchW backendZ).2.1 =
      { depth := slotSwitchW.user_depth,
        convergence := slotSwitchW.user_convergence }
    ∧ (evalSlot 30 1 snapK12 slotSwitchW backendZ).1.user_depth =
        slotSwitchW.user_depth
    ∧ (evalSlot 30 1 snapK12 slotSwitchW backendZ).1.user_convergence =
        slotSwitchW.user_convergence) :=
  ⟨by decide, by decide, by decide,
   store_captures_post_apply 30 1 snapK12 slotSwitchW backendZ
     (by decide) (by decide) (Or.inl (by decide))⟩
